import Mathlib

set_option maxRecDepth 4096

/-!
Verification of the PharmacyGenius drug-search service (src/main.py) against
its natural-language specification.

The embedding is shallow: the prompt builder `create_drug_search_prompt` is a
pure string function translated verbatim from the Python source (all section
texts are copied character for character, including indentation and trailing
whitespace of the Python triple-quoted literals); the FastAPI handlers
`search_drug`, `quick_drug_search` and `health_check` are modelled as pure
functions over an explicit environment consisting of
  - a flag telling whether the OpenAI client is configured,
  - the external provider, a function from a chat-completion request to either
    a response text or an error message, and
  - the wall-clock samples taken by the two datetime.now() calls.
A handler either returns its response value or raises an HTTP error
(`Except HTTPError _`), and additionally yields the list of provider calls it
issued, so that statements about the number and content of network calls can
be made.  Pydantic / FastAPI parameter validation (min_length=1,
max_length=100 on the drug name, counted in code points, exactly as Python
`len`) is modelled by an explicit validation step executed before the handler
body, as FastAPI does.
-/

/-- Request model for drug search (pydantic model `DrugSearchRequest`,
src/main.py lines 84-89).  Field defaults mirror the `Field` defaults. -/
structure DrugSearchRequest where
  drug_name : String
  include_dosage : Bool := true
  include_side_effects : Bool := true
  include_interactions : Bool := false
  deriving Repr, DecidableEq

/-- Echo of the three inclusion flags returned inside a successful search
response (the `search_options` object of src/main.py lines 312-316). -/
structure SearchOptions where
  include_dosage : Bool
  include_side_effects : Bool
  include_interactions : Bool
  deriving Repr, DecidableEq

/-- The `data` payload of a successful search response
(src/main.py lines 308-318).  The start timestamp is kept as the integer
clock sample instead of its ISO rendering. -/
structure SearchData where
  drug_name : String
  search_query : String
  drug_information : String
  search_options : SearchOptions
  timestamp : Int
  deriving Repr, DecidableEq

/-- Standard API response wrapper (pydantic model `APIResponse`,
src/main.py lines 108-114). -/
structure APIResponse where
  success : Bool
  data : Option SearchData := none
  message : Option String := none
  error : Option String := none
  processing_time : Option Int := none
  deriving Repr, DecidableEq

/-- An HTTPException raised by a handler (status code and detail text). -/
structure HTTPError where
  status_code : Nat
  detail : String
  deriving Repr, DecidableEq

/-- One chat-completion request sent to the OpenAI client: model name, the
messages as (role, content) pairs, the max_tokens bound, and the sampling
temperature if one is passed (`none` = the parameter is not passed at all). -/
structure ChatRequest where
  model : String
  messages : List (String × String)
  max_tokens : Nat
  temperature : Option Int := none
  deriving Repr, DecidableEq

/-- The external provider: maps a chat request to the response text or to the
message of the exception it raises. -/
def Provider : Type := ChatRequest → Except String String

/-- Python string slicing `s[:n]` on code points (Python `str` and Lean
`String.data` both enumerate Unicode code points). -/
def str_slice (s : String) (n : Nat) : String :=
  ⟨s.data.take n⟩

/-- Fixed text of the base prompt before the interpolated drug name
(src/main.py line 119-120, through the opening quote). -/
def basePromptHeader : String :=
  "\n    Search for comprehensive information about the drug \""

/-- Fixed text of the base prompt after the interpolated drug name
(src/main.py lines 120-139: the basic / medical / regulatory sections). -/
def basePromptBody : String :=
  "\" and provide detailed, accurate information from authoritative medical sources. \n\n    Please provide the following information in a structured format:\n\n    1. **Basic Information:**\n       - Official drug name\n       - Generic name (if applicable)\n       - Common brand names\n       - Drug classification/category\n\n    2. **Medical Information:**\n       - Primary indications (what conditions it treats)\n       - Mechanism of action (how it works)\n       - Therapeutic category\n\n    3. **Regulatory Information:**\n       - FDA approval status\n       - Available formulations (tablets, injection, etc.)\n       - Prescription vs OTC status\n    "

/-- The fixed preamble of every prompt: the f-string assigned to
`base_prompt` in src/main.py lines 119-139, with the drug name interpolated. -/
def base_prompt_text (drug_name : String) : String :=
  basePromptHeader ++ drug_name ++ basePromptBody

/-- Dosage section appended when include_dosage is true
(src/main.py lines 141-148). -/
def dosageSection : String :=
  "\n    4. **Dosage Information:**\n       - Typical adult dosage\n       - Pediatric dosage (if applicable)\n       - Administration route\n       - Frequency of administration\n        "

/-- Safety / side-effects section appended when include_side_effects is true
(src/main.py lines 150-157). -/
def sideEffectsSection : String :=
  "\n    5. **Safety Information:**\n       - Common side effects\n       - Serious/rare side effects\n       - Contraindications\n       - Important warnings and precautions\n        "

/-- Drug-interactions section appended when include_interactions is true
(src/main.py lines 159-165). -/
def interactionsSection : String :=
  "\n    6. **Drug Interactions:**\n       - Major drug interactions\n       - Food interactions\n       - Alcohol interactions\n        "

/-- Closing instructions block appended unconditionally
(src/main.py lines 167-178). -/
def closingInstructions : String :=
  "\n\n    **Important Instructions:**\n    - Only use information from authoritative medical sources (FDA, EMA, PubMed, medical textbooks, official drug labels)\n    - Ensure all information is current and accurate\n    - If certain information is not available or unclear, state that explicitly\n    - Include the sources where you found this information\n    - Format the response in clear, structured sections\n    - Use medical terminology appropriately but explain complex terms\n\n    Please search the web for the most current and accurate information about this drug.\n    "

/-- The prompt builder `create_drug_search_prompt` (src/main.py lines
116-180), translated statement by statement: start from the base f-string,
conditionally append the dosage, safety and interactions sections in that
order, then append the closing instructions. -/
def create_drug_search_prompt (drug_name : String) (include_dosage : Bool := true)
    (include_side_effects : Bool := true) (include_interactions : Bool := false) : String :=
  let base_prompt := base_prompt_text drug_name
  let base_prompt := if include_dosage then base_prompt ++ dosageSection else base_prompt
  let base_prompt := if include_side_effects then base_prompt ++ sideEffectsSection else base_prompt
  let base_prompt := if include_interactions then base_prompt ++ interactionsSection else base_prompt
  base_prompt ++ closingInstructions

/-- The fixed system message of the search call (src/main.py lines 287-290). -/
def searchSystemMessage : String :=
  "You are a medical information specialist. Search the web to find accurate, up-to-date drug information from authoritative medical sources like FDA, EMA, PubMed, and medical literature. Provide comprehensive, well-structured responses with source citations."

/-- The single chat-completion request issued by `search_drug` for a given
request (src/main.py lines 284-298): model gpt-4o-search-preview, the fixed
system message plus the built prompt as user message, max_tokens 2000, and no
temperature parameter (the source comments that search preview models do not
support one). -/
def chatRequestFor (request : DrugSearchRequest) : ChatRequest :=
  { model := "gpt-4o-search-preview"
    messages :=
      [("system", searchSystemMessage),
       ("user", create_drug_search_prompt request.drug_name request.include_dosage
          request.include_side_effects request.include_interactions)]
    max_tokens := 2000
    temperature := none }

/-- Detail text of the 503 raised when no OpenAI client is configured
(src/main.py lines 266-270). -/
def clientNotConfiguredDetail : String :=
  "OpenAI client not configured. Please set OPENAI_API_KEY environment variable."

/-- The `POST /search/drug` handler body `search_drug` (src/main.py lines
234-328).  `openai_client` tells whether the module-level client was
configured; `start_time` and `finish_time` are the two datetime.now()
samples; the second component of the result is the trace of provider calls
issued.  On provider failure the handler computes the elapsed time (the
Python code does, and discards it) and raises a 500 whose detail wraps the
provider error text; no APIResponse is returned on that path. -/
def search_drug (openai_client : Bool) (provider : Provider)
    (start_time finish_time : Int) (request : DrugSearchRequest) :
    Except HTTPError APIResponse × List ChatRequest :=
  if !openai_client then
    (Except.error { status_code := 503, detail := clientNotConfiguredDetail }, [])
  else
    let search_prompt := create_drug_search_prompt request.drug_name request.include_dosage
      request.include_side_effects request.include_interactions
    let call := chatRequestFor request
    match provider call with
    | Except.ok drug_info_text =>
      let processing_time := finish_time - start_time
      (Except.ok
        { success := true
          data := some
            { drug_name := request.drug_name
              search_query := str_slice search_prompt 200 ++ "..."
              drug_information := drug_info_text
              search_options :=
                { include_dosage := request.include_dosage
                  include_side_effects := request.include_side_effects
                  include_interactions := request.include_interactions }
              timestamp := start_time }
          message := some ("Successfully retrieved information for \x27" ++ request.drug_name ++ "\x27")
          error := none
          processing_time := some processing_time },
       [call])
    | Except.error e =>
      let _processing_time := finish_time - start_time
      (Except.error
        { status_code := 500
          detail := "Failed to search for drug information: " ++ e },
       [call])

/-- Pydantic validation of `DrugSearchRequest.drug_name`
(`min_length=1, max_length=100`, src/main.py line 86): the request object is
produced only when the drug name has between 1 and 100 code points. -/
def DrugSearchRequest.validate (drug_name : String) (include_dosage : Bool)
    (include_side_effects : Bool) (include_interactions : Bool) :
    Option DrugSearchRequest :=
  if 1 ≤ drug_name.length ∧ drug_name.length ≤ 100 then
    some
      { drug_name := drug_name
        include_dosage := include_dosage
        include_side_effects := include_side_effects
        include_interactions := include_interactions }
  else
    none

/-- The full `POST /search/drug` endpoint: FastAPI validates the request body
against `DrugSearchRequest` and answers 422 Unprocessable Entity without
running the handler when validation fails; otherwise it runs `search_drug`. -/
def post_search_drug (openai_client : Bool) (provider : Provider)
    (start_time finish_time : Int) (drug_name : String) (include_dosage : Bool)
    (include_side_effects : Bool) (include_interactions : Bool) :
    Except HTTPError APIResponse × List ChatRequest :=
  match DrugSearchRequest.validate drug_name include_dosage include_side_effects
      include_interactions with
  | some request => search_drug openai_client provider start_time finish_time request
  | none => (Except.error { status_code := 422, detail := "Unprocessable Entity" }, [])

/-- The `GET /search/quick` endpoint `quick_drug_search` (src/main.py lines
331-352): FastAPI validates the `drug_name` query parameter with the same
min_length=1 / max_length=100 bounds (answering 422 when it fails), then the
handler builds a `DrugSearchRequest` with include_dosage=true,
include_side_effects=true, include_interactions=false and awaits
`search_drug` on it. -/
def quick_drug_search (openai_client : Bool) (provider : Provider)
    (start_time finish_time : Int) (drug_name : String) :
    Except HTTPError APIResponse × List ChatRequest :=
  if 1 ≤ drug_name.length ∧ drug_name.length ≤ 100 then
    let request : DrugSearchRequest :=
      { drug_name := drug_name
        include_dosage := true
        include_side_effects := true
        include_interactions := false }
    search_drug openai_client provider start_time finish_time request
  else
    (Except.error { status_code := 422, detail := "Unprocessable Entity" }, [])

/-- Response of the `GET /health` endpoint (src/main.py lines 197-230),
a dictionary with a subset of these keys in each branch. -/
structure HealthResponse where
  status : String
  openai_client : String
  model : Option String := none
  message : Option String := none
  error : Option String := none
  timestamp : String
  deriving Repr, DecidableEq

/-- The lightweight chat request the health check sends to test connectivity
(src/main.py lines 212-216). -/
def healthProbeRequest : ChatRequest :=
  { model := "gpt-4o"
    messages := [("user", "Say \x27API connection successful\x27")]
    max_tokens := 10
    temperature := none }

/-- The `GET /health` handler `health_check` (src/main.py lines 197-230):
warning when no client is configured, healthy when the probe call succeeds,
error carrying the exception text otherwise; every branch carries a
timestamp (`ts` is the datetime.now().isoformat() sample of the branch). -/
def health_check (openai_client : Bool) (provider : Provider) (ts : String) :
    HealthResponse :=
  if !openai_client then
    { status := "warning"
      openai_client := "not_configured"
      message := some "OpenAI API key not configured"
      timestamp := ts }
  else
    match provider healthProbeRequest with
    | Except.ok _ =>
      { status := "healthy"
        openai_client := "connected"
        model := some "gpt-4o"
        timestamp := ts }
    | Except.error e =>
      { status := "error"
        openai_client := "error"
        error := some e
        timestamp := ts }

/-- Modelled from the spec: trimming whitespace from a drug name (Python
`str.strip`, which the source never applies to drug_name; the spec's
invariant "drugName is non-empty after trimming" is stated in terms of it).
Whitespace code points are removed from both ends. -/
def py_strip (s : String) : String :=
  ⟨((s.data.dropWhile Char.isWhitespace).reverse.dropWhile Char.isWhitespace).reverse⟩

/-! ## Helper lemmas -/

theorem create_drug_search_prompt_decomp (drug_name : String) (d s i : Bool) :
    create_drug_search_prompt drug_name d s i =
      base_prompt_text drug_name ++
        ((if d then dosageSection else "") ++
          ((if s then sideEffectsSection else "") ++
            ((if i then interactionsSection else "") ++ closingInstructions))) := by
  cases d <;> cases s <;> cases i <;>
    simp [create_drug_search_prompt, String.append_assoc]

theorem base_prompt_text_ne_empty (drug_name : String) :
    base_prompt_text drug_name ≠ "" := by
  intro h
  have hlen := congrArg String.length h
  simp [base_prompt_text] at hlen
  have hh : 0 < basePromptHeader.length := by decide
  omega

/-- C1: for every drug name and every combination of the three flags, the
built prompt is exactly the fixed preamble, then the dosage section iff
include_dosage, then the safety section iff include_side_effects, then the
interactions section iff include_interactions, then the fixed closing
instructions, in that order; the preamble and the closing block are nonempty
and present in every output. -/
theorem prompt_is_preamble_optional_sections_closing (drug_name : String) (d s i : Bool) :
    create_drug_search_prompt drug_name d s i =
      base_prompt_text drug_name ++ (if d then dosageSection else "") ++
        (if s then sideEffectsSection else "") ++
        (if i then interactionsSection else "") ++ closingInstructions ∧
    base_prompt_text drug_name ≠ "" ∧ closingInstructions ≠ "" := by
  refine ⟨?_, base_prompt_text_ne_empty drug_name, by decide⟩
  rw [create_drug_search_prompt_decomp]
  simp [String.append_assoc]

theorem le_length_base_prompt_data (drug_name : String) :
    200 ≤ (base_prompt_text drug_name).data.length := by
  have h : (base_prompt_text drug_name).data.length = (base_prompt_text drug_name).length := rfl
  rw [h]
  have h2 : 200 ≤ basePromptHeader.length + basePromptBody.length := by decide
  simp [base_prompt_text]
  omega

theorem take200_create_drug_search_prompt (drug_name : String) (d s i : Bool) :
    (create_drug_search_prompt drug_name d s i).data.take 200 =
      (base_prompt_text drug_name).data.take 200 := by
  rw [create_drug_search_prompt_decomp, String.data_append]
  exact List.take_append_of_le_length (le_length_base_prompt_data drug_name)

theorem str_slice_create_200 (drug_name : String) (d s i : Bool) :
    str_slice (create_drug_search_prompt drug_name d s i) 200 =
      str_slice (base_prompt_text drug_name) 200 := by
  unfold str_slice
  exact congrArg String.mk (take200_create_drug_search_prompt drug_name d s i)

/-- C3: when no OpenAI client is configured, `search_drug` fails with a 503
service-unavailable condition; the outcome is the same for every provider and
every clock sample (so no timing work, prompt building or network call can
influence it), the call trace is empty, and the handler returns normally with
an error value rather than crashing. -/
theorem search_unavailable_when_unconfigured (provider : Provider)
    (start_time finish_time : Int) (request : DrugSearchRequest) :
    search_drug false provider start_time finish_time request =
      (Except.error { status_code := 503, detail := clientNotConfiguredDetail }, []) := rfl

/-- C4: for every drug name (valid or not) and every environment, the quick
search endpoint produces exactly the outcome of the detailed search endpoint
invoked with include_dosage=true, include_side_effects=true,
include_interactions=false; in particular this holds for drug name
"aspirin", and the quick handler routes through `search_drug` itself. -/
theorem quick_search_equals_detailed_default_flags (openai_client : Bool)
    (provider : Provider) (start_time finish_time : Int) (drug_name : String) :
    quick_drug_search openai_client provider start_time finish_time drug_name =
      post_search_drug openai_client provider start_time finish_time drug_name
        true true false := by
  by_cases hc : 1 ≤ drug_name.length ∧ drug_name.length ≤ 100 <;>
    simp [quick_drug_search, post_search_drug, DrugSearchRequest.validate, hc]

/-- C8: with a configured client, `search_drug` issues exactly one provider
call for any request and any provider behaviour, and that call uses the
gpt-4o-search-preview model, the fixed medical-information-specialist system
message with the built prompt as the user message, a max_tokens bound of
2000, and passes no temperature parameter. -/
theorem search_issues_exactly_one_call (provider : Provider)
    (start_time finish_time : Int) (request : DrugSearchRequest) :
    (search_drug true provider start_time finish_time request).2 = [chatRequestFor request] ∧
    (chatRequestFor request).model = "gpt-4o-search-preview" ∧
    (chatRequestFor request).messages =
      [("system", searchSystemMessage),
       ("user", create_drug_search_prompt request.drug_name request.include_dosage
          request.include_side_effects request.include_interactions)] ∧
    (chatRequestFor request).max_tokens = 2000 ∧
    (chatRequestFor request).temperature = none := by
  refine ⟨?_, rfl, rfl, rfl, rfl⟩
  rcases h : provider (chatRequestFor request) with text | e <;> simp [search_drug, h]

/-- C10: for a fixed drug name, the first 200 characters of the built prompt
are identical across all combinations of the three inclusion flags, and hence
two successful runs of `search_drug` that differ only in the flags (and in
provider behaviour and clock samples) return the same truncated search_query
preview: the flags do not interfere with the preview.  Requests are written
with the anonymous constructor, whose field order is (drug_name,
include_dosage, include_side_effects, include_interactions). -/
theorem preview_noninterference_of_flags (drug_name : String)
    (d1 s1 i1 d2 s2 i2 : Bool) (p q : Provider) (t0 t1 u0 u1 : Int)
    (text1 text2 : String)
    (h1 : p (chatRequestFor ⟨drug_name, d1, s1, i1⟩) = Except.ok text1)
    (h2 : q (chatRequestFor ⟨drug_name, d2, s2, i2⟩) = Except.ok text2) :
    str_slice (create_drug_search_prompt drug_name d1 s1 i1) 200 =
      str_slice (create_drug_search_prompt drug_name d2 s2 i2) 200 ∧
    ((search_drug true p t0 t1 ⟨drug_name, d1, s1, i1⟩).1.map fun r =>
          r.data.map SearchData.search_query) =
      ((search_drug true q u0 u1 ⟨drug_name, d2, s2, i2⟩).1.map fun r =>
          r.data.map SearchData.search_query) := by
  have hs := (str_slice_create_200 drug_name d1 s1 i1).trans
    (str_slice_create_200 drug_name d2 s2 i2).symm
  refine ⟨hs, ?_⟩
  simp [search_drug, h1, h2, Except.map, hs]

/-- Witness for C10 at drug name "aspirin" with flag vectors (true, true,
false) and (false, false, true). -/
theorem preview_noninterference_of_flags_witness :
    str_slice (create_drug_search_prompt "aspirin" true true false) 200 =
      str_slice (create_drug_search_prompt "aspirin" false false true) 200 ∧
    ((search_drug true (fun _ => Except.ok "info") 0 0
        ⟨"aspirin", true, true, false⟩).1.map fun r =>
          r.data.map SearchData.search_query) =
      ((search_drug true (fun _ => Except.ok "other") 0 0
        ⟨"aspirin", false, false, true⟩).1.map fun r =>
          r.data.map SearchData.search_query) :=
  preview_noninterference_of_flags "aspirin" true true false false false true
    (fun _ => Except.ok "info") (fun _ => Except.ok "other") 0 0 0 0 "info" "other" rfl rfl

/-- Counterexample to C2: with a configured client and a provider that raises
"boom", `search_drug` does not return any APIResponse envelope at all (so in
particular none with success=false, an error field and a populated processing
time): it raises an HTTPException with status 500 whose detail wraps the
provider error text, and the computed elapsed time is discarded. -/
theorem upstream_failure_returns_no_envelope :
    ((search_drug true (fun _ => Except.error "boom") 0 0
        ⟨"aspirin", true, true, false⟩).1.isOk = false) ∧
    (search_drug true (fun _ => Except.error "boom") 0 0
        ⟨"aspirin", true, true, false⟩).1 =
      Except.error
        { status_code := 500,
          detail := "Failed to search for drug information: boom" } := by
  exact ⟨rfl, rfl⟩

/-- C2 as amended: whenever the provider call raises an error with message E,
`search_drug` raises an HTTPException with status 500 whose detail is the
fixed failure text followed by E (so the error text is surfaced but no
APIResponse envelope and no processing time are returned), and the provider
is called exactly once, i.e. the failure is not retried. -/
theorem upstream_failure_raises_500 (provider : Provider)
    (start_time finish_time : Int) (request : DrugSearchRequest) (e : String)
    (h : provider (chatRequestFor request) = Except.error e) :
    search_drug true provider start_time finish_time request =
      (Except.error
        { status_code := 500,
          detail := "Failed to search for drug information: " ++ e },
       [chatRequestFor request]) := by
  simp [search_drug, h]

/-- Witness for the amended C2 with provider error "boom". -/
theorem upstream_failure_raises_500_witness :
    search_drug true (fun _ => Except.error "boom") 0 0 ⟨"aspirin", true, true, false⟩ =
      (Except.error
        { status_code := 500,
          detail := "Failed to search for drug information: " ++ "boom" },
       [chatRequestFor ⟨"aspirin", true, true, false⟩]) :=
  upstream_failure_raises_500 (fun _ => Except.error "boom") 0 0
    ⟨"aspirin", true, true, false⟩ "boom" rfl

/-- C5: on every successful search (any drug name, any flag combination, any
provider response text, any clock samples) the search_query preview inside
the returned data equals exactly the first 200 characters of the built
prompt followed by the "..." ellipsis marker. -/
theorem success_preview_is_first_200_chars (provider : Provider)
    (start_time finish_time : Int) (request : DrugSearchRequest) (text : String)
    (h : provider (chatRequestFor request) = Except.ok text) :
    ((search_drug true provider start_time finish_time request).1.map fun r =>
        r.data.map SearchData.search_query) =
      Except.ok (some (str_slice (create_drug_search_prompt request.drug_name
        request.include_dosage request.include_side_effects
        request.include_interactions) 200 ++ "...")) := by
  simp [search_drug, h, Except.map]

/-- Witness for C5 at drug name "aspirin" with the default flags. -/
theorem success_preview_is_first_200_chars_witness :
    ((search_drug true (fun _ => Except.ok "info") 0 0
        ⟨"aspirin", true, true, false⟩).1.map fun r =>
          r.data.map SearchData.search_query) =
      Except.ok (some (str_slice (create_drug_search_prompt "aspirin"
        true true false) 200 ++ "...")) :=
  success_preview_is_first_200_chars (fun _ => Except.ok "info") 0 0
    ⟨"aspirin", true, true, false⟩ "info" rfl

/-- C6: the health check returns exactly one of the three states "warning"
(iff no client is configured), "healthy" (iff configured and the lightweight
probe call succeeds) and "error" (iff configured and the probe call raises,
in which case the response carries the failure text), and its response
carries the timestamp in every case. -/
theorem health_check_three_states (openai_client : Bool) (provider : Provider)
    (ts : String) :
    (health_check openai_client provider ts).timestamp = ts ∧
    ((health_check openai_client provider ts).status = "warning" ∨
      (health_check openai_client provider ts).status = "healthy" ∨
      (health_check openai_client provider ts).status = "error") ∧
    ((health_check openai_client provider ts).status = "warning" ↔
      openai_client = false) ∧
    ((health_check openai_client provider ts).status = "healthy" ↔
      openai_client = true ∧ (provider healthProbeRequest).isOk = true) ∧
    ((health_check openai_client provider ts).status = "error" ↔
      openai_client = true ∧ ∃ e, provider healthProbeRequest = Except.error e ∧
        (health_check openai_client provider ts).error = some e) := by
  cases openai_client
  · simp [health_check]
  · rcases h : provider healthProbeRequest with text | e <;>
      simp [health_check, h, Except.isOk, Except.toBool]

/-- C7: any request whose drug name is empty or longer than 100 characters is
rejected by validation with a 422 client-error response; the outcome is the
same for every provider and clock sample and the provider-call trace is
empty, so neither the prompt builder result nor any network call can reach
the response. -/
theorem invalid_drug_name_rejected (openai_client : Bool) (provider : Provider)
    (start_time finish_time : Int) (drug_name : String) (d s i : Bool)
    (h : drug_name.length = 0 ∨ 100 < drug_name.length) :
    post_search_drug openai_client provider start_time finish_time drug_name d s i =
      (Except.error { status_code := 422, detail := "Unprocessable Entity" }, []) := by
  have hv : DrugSearchRequest.validate drug_name d s i = none := by
    unfold DrugSearchRequest.validate
    rw [if_neg]
    omega
  simp [post_search_drug, hv]

/-- Witness for C7 with a drug name of exactly 101 characters. -/
theorem invalid_drug_name_rejected_witness :
    post_search_drug true (fun _ => Except.ok "info") 0 0
        (String.mk (List.replicate 101 (Char.ofNat 97))) true true false =
      (Except.error { status_code := 422, detail := "Unprocessable Entity" }, []) :=
  invalid_drug_name_rejected true (fun _ => Except.ok "info") 0 0
    (String.mk (List.replicate 101 (Char.ofNat 97))) true true false
    (Or.inr (by decide))

/-- Counterexample to C9: the single-space drug name " " becomes empty under
whitespace trimming, yet it passes validation (pydantic only checks the
untrimmed length 1 ≤ len ≤ 100) and reaches both the Prompt Builder and the
Gateway: with a configured client the endpoint issues the provider call built
from it. -/
theorem whitespace_drug_name_reaches_gateway :
    py_strip " " = "" ∧
    DrugSearchRequest.validate " " true true false =
      some ⟨" ", true, true, false⟩ ∧
    (post_search_drug true (fun _ => Except.ok "info") 0 0 " " true true false).2 =
      [chatRequestFor ⟨" ", true, true, false⟩] := by
  refine ⟨by decide, rfl, rfl⟩

/-- C9 as amended: every request accepted by validation has a drug name of
untrimmed length between 1 and 100 characters; non-emptiness after trimming
is not guaranteed, since validation never trims (a whitespace-only name
passes and reaches the Prompt Builder and the Gateway). -/
theorem validated_drug_name_length_bounds (drug_name : String) (d s i : Bool)
    (request : DrugSearchRequest)
    (h : DrugSearchRequest.validate drug_name d s i = some request) :
    1 ≤ request.drug_name.length ∧ request.drug_name.length ≤ 100 := by
  unfold DrugSearchRequest.validate at h
  by_cases hc : 1 ≤ drug_name.length ∧ drug_name.length ≤ 100
  · rw [if_pos hc] at h
    cases Option.some.inj h
    exact hc
  · rw [if_neg hc] at h
    exact Option.noConfusion h

/-- Witness for the amended C9 at drug name "aspirin". -/
theorem validated_drug_name_length_bounds_witness :
    1 ≤ (DrugSearchRequest.mk "aspirin" true true false).drug_name.length ∧
      (DrugSearchRequest.mk "aspirin" true true false).drug_name.length ≤ 100 :=
  validated_drug_name_length_bounds "aspirin" true true false
    (DrugSearchRequest.mk "aspirin" true true false) (by decide)
